import Mathlib

/-!
Shallow embedding of the `pyrpleair` client library (src/pyrpleair.py).

The library is a thin HTTP client for the PurpleAir sensor API: a class
`PyrpleAir` holding two optional credentials, one method per remote
operation, and a static helper `__add_optional_args_to_payload` that copies
the caller's non-`None` named arguments into the outgoing query-parameter
mapping.

Python values that flow through the library (argument values, credentials,
dictionary entries) are modelled by the inductive `Val`; Python `None` is
`Val.none`.  Python dictionaries are modelled as insertion-ordered
association lists (`Dict`), with `Dict.insert` reproducing `d[k] = v`
(update in place when the key exists, append otherwise).  Each client
method is a pure function from its arguments and the transport's response
to the issued `Request` paired with the returned `(status_code, body)`
tuple; the network itself is a parameter (`HttpResponse`).
-/

/-- A Python value as seen by this library: `None`, a string, an integer,
a dictionary, or an opaque object (used for `self` in `locals()`). -/
inductive Val
  | none
  | str (s : String)
  | int (n : Int)
  | dict (entries : List (String × Val))
  | obj

/-- Python's `is None` test, the presence test of the collector
(`input_arg_value is not None` in the source). -/
def Val.isNone : Val → Bool
  | Val.none => true
  | _ => false

/-- Python truthiness, as used by `if not (read_key or write_key)` in
`PyrpleAir.__init__`: `None`, `""`, `0` and `{}` are falsy. -/
def Val.truthy : Val → Bool
  | Val.none => false
  | Val.str s => !s.isEmpty
  | Val.int n => n != 0
  | Val.dict d => !d.isEmpty
  | Val.obj => true

/-- `str(v)`, as used by `str.format` when substituting a path parameter. -/
def Val.pyStr : Val → String
  | Val.none => "None"
  | Val.str s => s
  | Val.int n => toString n
  | Val.dict _ => ""
  | Val.obj => ""

/-- A Python `dict` with string keys, as an insertion-ordered association
list (Python dictionaries preserve insertion order and have unique keys). -/
abbrev Dict := List (String × Val)

/-- `d.get(key)` / `d[key]`: the value stored under `key`, if any. -/
def Dict.lookup : Dict → String → Option Val
  | [], _ => Option.none
  | e :: rest, key => if e.1 = key then Option.some e.2 else Dict.lookup rest key

/-- `key in d`. -/
def Dict.hasKey : Dict → String → Bool
  | [], _ => false
  | e :: rest, key => if e.1 = key then true else Dict.hasKey rest key

/-- Replace the value stored under `key` (leaves the dict unchanged when
the key is missing); helper for `Dict.insert`. -/
def Dict.update : Dict → String → Val → Dict
  | [], _, _ => []
  | e :: rest, key, v => (if e.1 = key then (key, v) else e) :: Dict.update rest key v

/-- Python `d[key] = v`: overwrite in place when `key` is present,
append at the end otherwise. -/
def Dict.insert (d : Dict) (key : String) (v : Val) : Dict :=
  if Dict.hasKey d key then Dict.update d key v else d ++ [(key, v)]

/-- The names unconditionally appended to `args_to_skip` by the collector
(`args_to_skip.extend(['self', 'header', 'parameters'])`). -/
def plumbingNames : List String := ["self", "header", "parameters"]

/-- The body of the collector's `for` loop: add `entry` to the payload
unless its name is skipped or its value is `None`. -/
def collectStep (args_to_skip : List String) (acc : Dict) (entry : String × Val) : Dict :=
  if entry.1 ∈ args_to_skip then acc
  else if entry.2.isNone then acc
  else Dict.insert acc entry.1 entry.2

/-- `PyrpleAir.__add_optional_args_to_payload(parameters, input_args,
args_to_skip)` (src/pyrpleair.py lines 205-221).  The Python function
mutates both `parameters` and `args_to_skip` in place; here both final
states are returned.  `input_args` is `Option`-valued because the source
guards on `input_args is not None`. -/
def addOptionalArgsToPayload (parameters : Dict) (input_args : Option Dict)
    (args_to_skip : List String) : Dict × List String :=
  let args_to_skip := args_to_skip ++ plumbingNames
  let parameters :=
    match input_args with
    | Option.some args =>
        if args.length > 0 then args.foldl (collectStep args_to_skip) parameters
        else parameters
    | Option.none => parameters
  (parameters, args_to_skip)

/-- The client object: the two credentials stored by `__init__`. -/
structure PyrpleAir where
  read_key : Val
  write_key : Val

/-- The `ValueError` message raised by `__init__` when both keys are falsy. -/
def missingKeyMessage : String :=
  "You need to specify at least one API key. You can email contact@purpleair.com to obtain one."

/-- `PyrpleAir.__init__(read_key, write_key)` (src/pyrpleair.py lines
20-35): raises `ValueError` when `not (read_key or write_key)` — a Python
truthiness test — and otherwise stores both values unchanged. -/
def PyrpleAir.init (read_key write_key : Val) : Except String PyrpleAir :=
  if !(read_key.truthy || write_key.truthy) then Except.error missingKeyMessage
  else Except.ok ⟨read_key, write_key⟩

/-- `PyrpleAir.__api_base`. -/
def api_base : String := "https://api.purpleair.com/"

/-- `PyrpleAir.__api_version`. -/
def api_version : String := "v1"

/-- `PyrpleAir.__api_endpoint` (src/pyrpleair.py lines 10-18): the fixed
mapping from operation name to URL template. -/
def api_endpoint : List (String × String) :=
  [("keys", api_base ++ api_version ++ "/keys"),
   ("sensors", api_base ++ api_version ++ "/sensors"),
   ("sensor", api_base ++ api_version ++ "/sensors/\x7bsensor_index\x7d"),
   ("groups", api_base ++ api_version ++ "/groups"),
   ("group", api_base ++ api_version ++ "/groups/\x7bgroup_id\x7d"),
   ("groups_members", api_base ++ api_version ++ "/groups/\x7bgroup_id\x7d/members"),
   ("group_member", api_base ++ api_version ++ "/groups/\x7bgroup_id\x7d/members/\x7bmember_id\x7d")]

/-- `self.__api_endpoint[name]`. -/
def endpointOf (name : String) : String :=
  match List.lookup name api_endpoint with
  | Option.some t => t
  | Option.none => ""

/-- Replace every occurrence of `pat` in `cs` by `repl`; `fuel` bounds the
recursion (callers pass `cs.length`, enough since `pat` is nonempty). -/
def replaceChars : Nat → List Char → List Char → List Char → List Char
  | 0, cs, _, _ => cs
  | _ + 1, [], _, _ => []
  | fuel + 1, c :: rest, pat, repl =>
      if pat ≠ [] ∧ List.isPrefixOf pat (c :: rest) then
        repl ++ replaceChars fuel ((c :: rest).drop pat.length) pat repl
      else c :: replaceChars fuel rest pat repl

/-- Python `template.format(name=value, ...)` restricted to the plain
`\x7bname\x7d` placeholders used by the endpoint templates: each
placeholder is replaced by `str(value)`. -/
def pyFormat (template : String) (subs : List (String × Val)) : String :=
  subs.foldl
    (fun t sub =>
      String.mk (replaceChars t.data.length t.data ("\x7b" ++ sub.1 ++ "\x7d").data sub.2.pyStr.data))
    template

/-- HTTP method of an issued request. -/
inductive Method
  | get
  | post
  | delete

/-- The request handed to the `requests` library: method, formatted URL,
the `headers=` dictionary, and the `params=` query mapping (empty when the
method call passes no `params` keyword). -/
structure Request where
  method : Method
  url : String
  header : Dict
  params : Dict

/-- The transport's reply: its status code, its raw text, and the value
`response.json()` would parse. -/
structure HttpResponse where
  status_code : Int
  text : String
  json : Val

/-- The second component of a returned tuple: either `response.json()` or
`response.text`. -/
inductive Body
  | jsonBody (v : Val)
  | textBody (s : String)

/-- `PyrpleAir.check_api_key(key)` (lines 37-46): GET `keys` with the
passed-in key as header, no params, JSON body. -/
def PyrpleAir.check_api_key (self : PyrpleAir) (key : Val) (resp : HttpResponse) :
    Request × (Int × Body) :=
  let header : Dict := [("X-API-Key", key)]
  (⟨Method.get, endpointOf "keys", header, []⟩,
   (resp.status_code, Body.jsonBody resp.json))

/-- `PyrpleAir.get_sensor_data(sensor_index, read_key, fields, cf)`
(lines 48-64): collect the non-`None` locals minus `sensor_index`, GET the
formatted `sensor` endpoint with the stored read key. -/
def PyrpleAir.get_sensor_data (self : PyrpleAir) (sensor_index read_key fields cf : Val)
    (resp : HttpResponse) : Request × (Int × Body) :=
  let header : Dict := [("X-API-Key", self.read_key)]
  let parameters : Dict := []
  let locals_dict : Dict :=
    [("self", Val.obj), ("sensor_index", sensor_index), ("read_key", read_key),
     ("fields", fields), ("cf", cf),
     ("header", Val.dict header), ("parameters", Val.dict parameters)]
  let parameters :=
    (addOptionalArgsToPayload parameters (Option.some locals_dict) ["sensor_index"]).1
  (⟨Method.get, pyFormat (endpointOf "sensor") [("sensor_index", sensor_index)],
    header, parameters⟩,
   (resp.status_code, Body.jsonBody resp.json))

/-- `PyrpleAir.get_sensors_data(fields, cf, ..., selat)` (lines 66-90):
base mapping `{'fields': fields}`, collect the non-`None` locals minus
`fields`, GET the `sensors` endpoint with the stored read key. -/
def PyrpleAir.get_sensors_data (self : PyrpleAir)
    (fields cf location_type read_keys show_only modified_since max_age nwlng nwlat selng selat : Val)
    (resp : HttpResponse) : Request × (Int × Body) :=
  let header : Dict := [("X-API-Key", self.read_key)]
  let parameters : Dict := [("fields", fields)]
  let locals_dict : Dict :=
    [("self", Val.obj), ("fields", fields), ("cf", cf), ("location_type", location_type),
     ("read_keys", read_keys), ("show_only", show_only), ("modified_since", modified_since),
     ("max_age", max_age), ("nwlng", nwlng), ("nwlat", nwlat), ("selng", selng),
     ("selat", selat), ("header", Val.dict header), ("parameters", Val.dict parameters)]
  let parameters :=
    (addOptionalArgsToPayload parameters (Option.some locals_dict) ["fields"]).1
  (⟨Method.get, endpointOf "sensors", header, parameters⟩,
   (resp.status_code, Body.jsonBody resp.json))

/-- `PyrpleAir.create_group(name)` (lines 92-103): POST `groups` with the
stored write key and params `{'name': name}`. -/
def PyrpleAir.create_group (self : PyrpleAir) (name : Val) (resp : HttpResponse) :
    Request × (Int × Body) :=
  let header : Dict := [("X-API-Key", self.write_key)]
  let parameters : Dict := [("name", name)]
  (⟨Method.post, endpointOf "groups", header, parameters⟩,
   (resp.status_code, Body.jsonBody resp.json))

/-- `PyrpleAir.delete_group(group_id)` (lines 105-116): DELETE the
formatted `group` endpoint with the stored write key; the local
`parameters` dict is built but never passed to `requests.delete`, so the
issued request carries no query parameters; returns `response.text`. -/
def PyrpleAir.delete_group (self : PyrpleAir) (group_id : Val) (resp : HttpResponse) :
    Request × (Int × Body) :=
  let header : Dict := [("X-API-Key", self.write_key)]
  let _parameters : Dict := [("group_id", group_id)]
  (⟨Method.delete, pyFormat (endpointOf "group") [("group_id", group_id)], header, []⟩,
   (resp.status_code, Body.textBody resp.text))

/-- `PyrpleAir.add_group_member(group_id, sensor_id, sensor_index,
owner_email, location_type)` (lines 118-137): base mapping
`{'group_id': group_id}`, collect the non-`None` locals minus `group_id`,
POST the formatted `groups_members` endpoint with the stored write key. -/
def PyrpleAir.add_group_member (self : PyrpleAir)
    (group_id sensor_id sensor_index owner_email location_type : Val)
    (resp : HttpResponse) : Request × (Int × Body) :=
  let header : Dict := [("X-API-Key", self.write_key)]
  let parameters : Dict := [("group_id", group_id)]
  let locals_dict : Dict :=
    [("self", Val.obj), ("group_id", group_id), ("sensor_id", sensor_id),
     ("sensor_index", sensor_index), ("owner_email", owner_email),
     ("location_type", location_type),
     ("header", Val.dict header), ("parameters", Val.dict parameters)]
  let parameters :=
    (addOptionalArgsToPayload parameters (Option.some locals_dict) ["group_id"]).1
  (⟨Method.post, pyFormat (endpointOf "groups_members") [("group_id", group_id)],
    header, parameters⟩,
   (resp.status_code, Body.jsonBody resp.json))

/-- `PyrpleAir.delete_group_member(group_id, member_id)` (lines 139-151):
DELETE the formatted `group_member` endpoint with the stored write key; the
local `parameters` dict is never passed to `requests.delete`, so the issued
request carries no query parameters; returns `response.text`. -/
def PyrpleAir.delete_group_member (self : PyrpleAir) (group_id member_id : Val)
    (resp : HttpResponse) : Request × (Int × Body) :=
  let header : Dict := [("X-API-Key", self.write_key)]
  let _parameters : Dict := [("group_id", group_id), ("member_id", member_id)]
  (⟨Method.delete,
    pyFormat (endpointOf "group_member") [("group_id", group_id), ("member_id", member_id)],
    header, []⟩,
   (resp.status_code, Body.textBody resp.text))

/-- `PyrpleAir.get_group_info(group_id)` (lines 153-162): GET the formatted
`group` endpoint with the stored read key, no params. -/
def PyrpleAir.get_group_info (self : PyrpleAir) (group_id : Val) (resp : HttpResponse) :
    Request × (Int × Body) :=
  let header : Dict := [("X-API-Key", self.read_key)]
  (⟨Method.get, pyFormat (endpointOf "group") [("group_id", group_id)], header, []⟩,
   (resp.status_code, Body.jsonBody resp.json))

/-- `PyrpleAir.get_owned_groups()` (lines 164-172): GET the `groups`
endpoint with the stored read key, no params. -/
def PyrpleAir.get_owned_groups (self : PyrpleAir) (resp : HttpResponse) :
    Request × (Int × Body) :=
  let header : Dict := [("X-API-Key", self.read_key)]
  (⟨Method.get, endpointOf "groups", header, []⟩,
   (resp.status_code, Body.jsonBody resp.json))

/-- `PyrpleAir.get_group_sensors_data(group_id, fields, ..., selat)`
(lines 175-202): base mapping `{'fields': fields}`, collect the non-`None`
locals minus `fields` (note: `group_id` is in `locals()` and is not
skipped), GET the formatted `groups_members` endpoint with the stored read
key. -/
def PyrpleAir.get_group_sensors_data (self : PyrpleAir)
    (group_id fields cf location_type read_keys show_only modified_since max_age nwlng nwlat selng selat : Val)
    (resp : HttpResponse) : Request × (Int × Body) :=
  let header : Dict := [("X-API-Key", self.read_key)]
  let parameters : Dict := [("fields", fields)]
  let locals_dict : Dict :=
    [("self", Val.obj), ("group_id", group_id), ("fields", fields), ("cf", cf),
     ("location_type", location_type), ("read_keys", read_keys), ("show_only", show_only),
     ("modified_since", modified_since), ("max_age", max_age), ("nwlng", nwlng),
     ("nwlat", nwlat), ("selng", selng), ("selat", selat),
     ("header", Val.dict header), ("parameters", Val.dict parameters)]
  let parameters :=
    (addOptionalArgsToPayload parameters (Option.some locals_dict) ["fields"]).1
  (⟨Method.get, pyFormat (endpointOf "groups_members") [("group_id", group_id)],
    header, parameters⟩,
   (resp.status_code, Body.jsonBody resp.json))

theorem Val.isNone_none : Val.none.isNone = true := rfl

theorem Dict.lookup_eq_none_of_hasKey_false (d : Dict) (k : String)
    (h : Dict.hasKey d k = false) : Dict.lookup d k = Option.none := by
  induction d with
  | nil => rfl
  | cons e rest ih =>
      by_cases he : e.1 = k
      · simp [Dict.hasKey, he] at h
      · simp only [Dict.hasKey, he, if_false] at h
        simp [Dict.lookup, he, ih h]

theorem Dict.lookup_eq_none_of_not_mem (d : Dict) (k : String)
    (h : k ∉ d.map Prod.fst) : Dict.lookup d k = Option.none := by
  induction d with
  | nil => rfl
  | cons e rest ih =>
      simp only [List.map_cons, List.mem_cons, not_or] at h
      have he : e.1 ≠ k := fun hh => h.1 hh.symm
      simp [Dict.lookup, he, ih h.2]

theorem Dict.lookup_append_single (d : Dict) (key : String) (v : Val) (k : String) :
    Dict.lookup (d ++ [(key, v)]) k =
      match Dict.lookup d k with
      | Option.some w => Option.some w
      | Option.none => if key = k then Option.some v else Option.none := by
  induction d with
  | nil => rfl
  | cons e rest ih =>
      by_cases he : e.1 = k
      · simp [Dict.lookup, he]
      · simp [Dict.lookup, he, ih]

theorem Dict.lookup_update_self (d : Dict) (key : String) (v : Val)
    (h : Dict.hasKey d key = true) :
    Dict.lookup (Dict.update d key v) key = Option.some v := by
  induction d with
  | nil => simp [Dict.hasKey] at h
  | cons e rest ih =>
      by_cases he : e.1 = key
      · simp [Dict.update, Dict.lookup, he]
      · simp only [Dict.hasKey, he, if_false] at h
        simp [Dict.update, Dict.lookup, he, ih h]

theorem Dict.lookup_update_ne (d : Dict) (key : String) (v : Val) (k : String)
    (h : k ≠ key) : Dict.lookup (Dict.update d key v) k = Dict.lookup d k := by
  induction d with
  | nil => rfl
  | cons e rest ih =>
      by_cases he : e.1 = key
      · have hkk : key ≠ k := fun hh => h hh.symm
        have hek : e.1 ≠ k := he ▸ hkk
        simp [Dict.update, Dict.lookup, he, hkk, hek, ih]
      · simp [Dict.update, Dict.lookup, he, ih]

theorem Dict.lookup_insert_self (d : Dict) (key : String) (v : Val) :
    Dict.lookup (Dict.insert d key v) key = Option.some v := by
  cases hk : Dict.hasKey d key
  · simp only [Dict.insert, hk, Bool.false_eq_true, if_false]
    rw [Dict.lookup_append_single, Dict.lookup_eq_none_of_hasKey_false d key hk]
    simp
  · simp only [Dict.insert, hk, if_true]
    exact Dict.lookup_update_self d key v hk

theorem Dict.lookup_insert_ne (d : Dict) (key : String) (v : Val) (k : String)
    (h : k ≠ key) : Dict.lookup (Dict.insert d key v) k = Dict.lookup d k := by
  cases hk : Dict.hasKey d key
  · simp only [Dict.insert, hk, Bool.false_eq_true, if_false]
    rw [Dict.lookup_append_single]
    cases hd : Dict.lookup d k
    · simp [Ne.symm h]
    · rfl
  · simp only [Dict.insert, hk, if_true]
    exact Dict.lookup_update_ne d key v k h

theorem foldl_collect_skip (inputs : Dict) (base : Dict) (skipAll : List String)
    (k : String) (h : k ∈ skipAll) :
    Dict.lookup (inputs.foldl (collectStep skipAll) base) k = Dict.lookup base k := by
  induction inputs generalizing base with
  | nil => rfl
  | cons e rest ih =>
      rw [List.foldl_cons, ih]
      by_cases h1 : e.1 ∈ skipAll
      · simp [collectStep, h1]
      · have hne : k ≠ e.1 := fun hh => h1 (hh ▸ h)
        by_cases h2 : e.2.isNone
        · simp [collectStep, h1, h2]
        · simp [collectStep, h1, h2, Dict.lookup_insert_ne base e.1 e.2 k hne]

theorem foldl_collect_lookup (inputs : Dict) (base : Dict) (skipAll : List String)
    (k : String) (hnd : (inputs.map Prod.fst).Nodup) :
    Dict.lookup (inputs.foldl (collectStep skipAll) base) k =
      match Dict.lookup inputs k with
      | Option.some v =>
          if k ∈ skipAll ∨ v.isNone = true then Dict.lookup base k else Option.some v
      | Option.none => Dict.lookup base k := by
  induction inputs generalizing base with
  | nil => rfl
  | cons e rest ih =>
      simp only [List.map_cons, List.nodup_cons] at hnd
      rw [List.foldl_cons, ih _ hnd.2]
      by_cases hek : e.1 = k
      · subst hek
        have hrest : Dict.lookup rest e.1 = Option.none :=
          Dict.lookup_eq_none_of_not_mem rest e.1 hnd.1
        by_cases h1 : e.1 ∈ skipAll
        · simp [collectStep, h1, hrest, Dict.lookup]
        · by_cases h2 : e.2.isNone
          · simp [collectStep, h1, h2, hrest, Dict.lookup]
          · simp [collectStep, h1, h2, hrest, Dict.lookup, Dict.lookup_insert_self]
      · have hhead : Dict.lookup (e :: rest) k = Dict.lookup rest k := by
          simp [Dict.lookup, hek]
        rw [hhead]
        have hb : Dict.lookup (collectStep skipAll base e) k = Dict.lookup base k := by
          by_cases h1 : e.1 ∈ skipAll
          · simp [collectStep, h1]
          · by_cases h2 : e.2.isNone
            · simp [collectStep, h1, h2]
            · simp [collectStep, h1, h2,
                Dict.lookup_insert_ne base e.1 e.2 k (Ne.symm hek)]
        cases hd : Dict.lookup rest k
        · simpa using hb
        · simp [hb]

theorem addOptional_lookup_skip (base inputs : Dict) (skip : List String) (k : String)
    (h : k ∈ skip ++ plumbingNames) :
    Dict.lookup (addOptionalArgsToPayload base (Option.some inputs) skip).1 k
      = Dict.lookup base k := by
  cases inputs with
  | nil => rfl
  | cons e rest =>
      simpa [addOptionalArgsToPayload] using
        foldl_collect_skip (e :: rest) base (skip ++ plumbingNames) k h

theorem addOptional_lookup (base inputs : Dict) (skip : List String) (k : String)
    (hnd : (inputs.map Prod.fst).Nodup) :
    Dict.lookup (addOptionalArgsToPayload base (Option.some inputs) skip).1 k =
      match Dict.lookup inputs k with
      | Option.some v =>
          if k ∈ skip ++ plumbingNames ∨ v.isNone = true then Dict.lookup base k
          else Option.some v
      | Option.none => Dict.lookup base k := by
  cases inputs with
  | nil => rfl
  | cons e rest =>
      simpa [addOptionalArgsToPayload] using
        foldl_collect_lookup (e :: rest) base (skip ++ plumbingNames) k hnd

/-- A fixed transport reply used by concrete counterexamples and witnesses. -/
def sampleResponse : HttpResponse := ⟨200, "", Val.none⟩

/-- C1 counterexample: constructing with `read_key = ""` and
`write_key = None` fails with the invalid-configuration error even though
the read credential is present (not the absence sentinel `None`), because
`__init__` tests Python truthiness, not absence. -/
theorem C1_counterexample_empty_string_key :
    PyrpleAir.init (Val.str "") Val.none = Except.error missingKeyMessage
      ∧ (Val.str "").isNone = false :=
  ⟨rfl, rfl⟩

/-- C1 (amended): construction fails with the invalid-configuration error
if and only if both credentials are falsy (`None`, empty string, zero, or
an empty collection); when at least one credential is truthy, construction
succeeds and the instance stores exactly the provided read and write
values unchanged. -/
theorem C1_init_fails_iff_both_falsy (read_key write_key : Val) :
    (PyrpleAir.init read_key write_key = Except.error missingKeyMessage
        ↔ (read_key.truthy || write_key.truthy) = false)
      ∧ ((read_key.truthy || write_key.truthy) = true
        → PyrpleAir.init read_key write_key = Except.ok ⟨read_key, write_key⟩) := by
  unfold PyrpleAir.init
  cases h : read_key.truthy || write_key.truthy <;> simp [h]

/-- C1 witness: the amended theorem applied at `read_key = 1`,
`write_key = None`. -/
theorem C1_witness :
    PyrpleAir.init (Val.int 1) Val.none = Except.ok ⟨Val.int 1, Val.none⟩ :=
  (C1_init_fails_iff_both_falsy (Val.int 1) Val.none).2 (by decide)

/-- C2 counterexample: `add_group_member` with `group_id = 5` and no
optional arguments sends `{'group_id': 5}` as its query mapping (the base
mapping seeds it), and `get_group_sensors_data` with `group_id = 5` sends
`group_id` as well (the collector picks it out of `locals()` because only
`fields` is excluded) — both contradict the claim that path parameters
never appear among the query parameters. -/
theorem C2_counterexample_group_id_forwarded :
    ((PyrpleAir.mk (Val.str "r") (Val.str "w")).add_group_member (Val.int 5)
        Val.none Val.none Val.none Val.none sampleResponse).1.params
      = [("group_id", Val.int 5)]
      ∧ ((PyrpleAir.mk (Val.str "r") (Val.str "w")).get_group_sensors_data (Val.int 5)
          (Val.str "pm2.5") Val.none Val.none Val.none Val.none Val.none Val.none
          Val.none Val.none Val.none Val.none sampleResponse).1.params
      = [("fields", Val.str "pm2.5"), ("group_id", Val.int 5)] :=
  ⟨rfl, rfl⟩

/-- C2 (amended): for get one sensor, delete group, remove group member
and get group info the query mapping sent with the request contains no
entry for any required path parameter; but add group member always sends
`group_id` as a query parameter (seeded into its base mapping), and get
group's sensors data sends `group_id` whenever it is not `None` (the
collector copies it from `locals()` since only `fields` is excluded). -/
theorem C2_path_params_in_query (self : PyrpleAir)
    (sensor_index read_key fields cf : Val)
    (group_id member_id sensor_id owner_email location_type : Val)
    (gfields gcf glt grk gso gms gma gnwlng gnwlat gselng gselat : Val)
    (resp : HttpResponse) :
    Dict.lookup (self.get_sensor_data sensor_index read_key fields cf resp).1.params
        "sensor_index" = Option.none
      ∧ (self.delete_group group_id resp).1.params = []
      ∧ (self.delete_group_member group_id member_id resp).1.params = []
      ∧ (self.get_group_info group_id resp).1.params = []
      ∧ Dict.lookup (self.add_group_member group_id sensor_id sensor_index owner_email
          location_type resp).1.params "group_id" = Option.some group_id
      ∧ Dict.lookup (self.get_group_sensors_data group_id gfields gcf glt grk gso gms gma
          gnwlng gnwlat gselng gselat resp).1.params "group_id"
        = (if group_id.isNone then Option.none else Option.some group_id) := by
  refine ⟨?_, rfl, rfl, rfl, ?_, ?_⟩
  · simp only [PyrpleAir.get_sensor_data]
    rw [addOptional_lookup_skip]
    · rfl
    · simp [plumbingNames]
  · simp only [PyrpleAir.add_group_member]
    rw [addOptional_lookup_skip]
    · simp [Dict.lookup]
    · simp [plumbingNames]
  · simp only [PyrpleAir.get_group_sensors_data]
    rw [addOptional_lookup]
    · cases hg : group_id.isNone <;> simp [Dict.lookup, plumbingNames, hg]
    · simp [plumbingNames]

/-- C3: the collector extends the base mapping with exactly the input
entries whose name is neither excluded nor a plumbing name and whose value
is not `None`, each under its own name; in particular the spec's worked
example produces exactly `{'fields': 'pm2.5'}`, and plumbing names never
reach keys absent from the base regardless of the caller's exclusions. -/
theorem C3_collector_characterization :
    (addOptionalArgsToPayload []
        (Option.some [("fields", Val.str "pm2.5"), ("cf", Val.none),
          ("sensor_index", Val.int 42)])
        ["sensor_index"]).1 = [("fields", Val.str "pm2.5")]
      ∧ (∀ (base inputs : Dict) (skip : List String) (k : String),
          (inputs.map Prod.fst).Nodup →
          Dict.lookup (addOptionalArgsToPayload base (Option.some inputs) skip).1 k =
            match Dict.lookup inputs k with
            | Option.some v =>
                if k ∈ skip ++ plumbingNames ∨ v.isNone = true then Dict.lookup base k
                else Option.some v
            | Option.none => Dict.lookup base k)
      ∧ (∀ (base inputs : Dict) (skip : List String) (k : String),
          k ∈ plumbingNames →
          Dict.lookup (addOptionalArgsToPayload base (Option.some inputs) skip).1 k
            = Dict.lookup base k) :=
  ⟨rfl, addOptional_lookup, fun base inputs skip k hk =>
    addOptional_lookup_skip base inputs skip k (by simp [hk])⟩

/-- C3 witness: the characterization applied at the spec's worked example,
looking up `fields`. -/
theorem C3_witness :
    Dict.lookup (addOptionalArgsToPayload []
        (Option.some [("fields", Val.str "pm2.5"), ("cf", Val.none),
          ("sensor_index", Val.int 42)])
        ["sensor_index"]).1 "fields" = Option.some (Val.str "pm2.5") := by
  have h := C3_collector_characterization
  rw [h.2.1 _ _ _ _ (by decide)]
  rfl

/-- C4: the `X-API-Key` header value is fixed by the operation — the
passed key for `check_api_key`, the stored read key for every retrieval
operation, the stored write key for every mutating operation. -/
theorem C4_header_fixed_per_operation (self : PyrpleAir) (key : Val)
    (sensor_index read_key fields cf : Val)
    (sfields scf slt srk sso sms sma snwlng snwlat sselng sselat : Val)
    (name group_id member_id sensor_id owner_email location_type : Val)
    (gfields gcf glt grk gso gms gma gnwlng gnwlat gselng gselat : Val)
    (resp : HttpResponse) :
    (self.check_api_key key resp).1.header = [("X-API-Key", key)]
      ∧ (self.get_sensor_data sensor_index read_key fields cf resp).1.header
        = [("X-API-Key", self.read_key)]
      ∧ (self.get_sensors_data sfields scf slt srk sso sms sma snwlng snwlat sselng
          sselat resp).1.header = [("X-API-Key", self.read_key)]
      ∧ (self.get_group_info group_id resp).1.header = [("X-API-Key", self.read_key)]
      ∧ (self.get_owned_groups resp).1.header = [("X-API-Key", self.read_key)]
      ∧ (self.get_group_sensors_data group_id gfields gcf glt grk gso gms gma gnwlng
          gnwlat gselng gselat resp).1.header = [("X-API-Key", self.read_key)]
      ∧ (self.create_group name resp).1.header = [("X-API-Key", self.write_key)]
      ∧ (self.delete_group group_id resp).1.header = [("X-API-Key", self.write_key)]
      ∧ (self.add_group_member group_id sensor_id sensor_index owner_email
          location_type resp).1.header = [("X-API-Key", self.write_key)]
      ∧ (self.delete_group_member group_id member_id resp).1.header
        = [("X-API-Key", self.write_key)] :=
  ⟨rfl, rfl, rfl, rfl, rfl, rfl, rfl, rfl, rfl, rfl⟩

/-- C5: `get_sensors_data` called with the required `fields` value
`"pm2.5,humidity"`, all four bounding-box coordinates present, and every
other optional argument `None` assembles a query mapping whose keys are
exactly `fields`, `nwlng`, `nwlat`, `selng`, `selat`. -/
theorem C5_sensors_query_keys (self : PyrpleAir) (nwlng nwlat selng selat : Val)
    (resp : HttpResponse)
    (h1 : nwlng.isNone = false) (h2 : nwlat.isNone = false)
    (h3 : selng.isNone = false) (h4 : selat.isNone = false) :
    ((self.get_sensors_data (Val.str "pm2.5,humidity") Val.none Val.none Val.none Val.none
        Val.none Val.none nwlng nwlat selng selat resp).1.params).map Prod.fst
      = ["fields", "nwlng", "nwlat", "selng", "selat"] := by
  simp [PyrpleAir.get_sensors_data, addOptionalArgsToPayload, plumbingNames,
    collectStep, Dict.insert, Dict.hasKey, Dict.update, Val.isNone_none, h1, h2, h3, h4]

/-- C5 witness: the theorem applied at a concrete bounding box. -/
theorem C5_witness :
    (((PyrpleAir.mk (Val.str "r") (Val.str "w")).get_sensors_data (Val.str "pm2.5,humidity")
        Val.none Val.none Val.none Val.none Val.none Val.none (Val.int 1) (Val.int 2)
        (Val.int 3) (Val.int 4) sampleResponse).1.params).map Prod.fst
      = ["fields", "nwlng", "nwlat", "selng", "selat"] :=
  C5_sensors_query_keys (PyrpleAir.mk (Val.str "r") (Val.str "w")) (Val.int 1) (Val.int 2)
    (Val.int 3) (Val.int 4) sampleResponse rfl rfl rfl rfl

/-- C6: `get_sensor_data` with sensor index `12345` and every optional
argument `None` issues a GET to `sensors/12345` (the `sensor` template
with the index substituted) with an empty query mapping and the stored
read key as the `X-API-Key` header. -/
theorem C6_get_sensor_request (self : PyrpleAir) (resp : HttpResponse) :
    (self.get_sensor_data (Val.int 12345) Val.none Val.none Val.none resp).1
      = ⟨Method.get, "https://api.purpleair.com/v1/sensors/12345",
         [("X-API-Key", self.read_key)], []⟩ := rfl

/-- C7: `delete_group` and `delete_group_member` return the numeric status
code paired with the raw response text (`response.text`), never the parsed
JSON structure, whatever the body contains. -/
theorem C7_delete_returns_raw_text (self : PyrpleAir) (group_id member_id : Val)
    (resp : HttpResponse) :
    (self.delete_group group_id resp).2 = (resp.status_code, Body.textBody resp.text)
      ∧ (self.delete_group_member group_id member_id resp).2
        = (resp.status_code, Body.textBody resp.text) :=
  ⟨rfl, rfl⟩

/-- C8: the collector is a total function (no failure mode in the
embedding), and an absent (`None`) or empty input-argument set leaves the
base parameter mapping unmodified. -/
theorem C8_collector_empty_input_identity (parameters : Dict) (args_to_skip : List String) :
    (addOptionalArgsToPayload parameters Option.none args_to_skip).1 = parameters
      ∧ (addOptionalArgsToPayload parameters (Option.some []) args_to_skip).1 = parameters :=
  ⟨rfl, rfl⟩

/-- C9: every collector call returns the caller's exclusion list extended
in place by the three plumbing names `self`, `header`, `parameters`, and a
repeated call on the returned list grows it by those three names again. -/
theorem C9_skip_list_mutation (parameters p2 : Dict) (input_args i2 : Option Dict)
    (args_to_skip : List String) :
    (addOptionalArgsToPayload parameters input_args args_to_skip).2
        = args_to_skip ++ ["self", "header", "parameters"]
      ∧ (addOptionalArgsToPayload p2 i2
          (addOptionalArgsToPayload parameters input_args args_to_skip).2).2
        = args_to_skip ++ ["self", "header", "parameters"] ++ ["self", "header", "parameters"] :=
  ⟨rfl, rfl⟩

/-- C10: the collector's presence test is exactly `is not None`: a falsy
but non-`None` value (the integer `0`, the empty string) is copied into
the mapping and forwarded on the request, as `get_sensors_data` with
`location_type = 0` shows. -/
theorem C10_presence_test_is_not_none (self : PyrpleAir) (fields v : Val)
    (resp : HttpResponse) :
    ((addOptionalArgsToPayload [] (Option.some [("location_type", v)]) []).1
        = if v.isNone then [] else [("location_type", v)])
      ∧ (addOptionalArgsToPayload [] (Option.some [("location_type", Val.int 0)]) []).1
        = [("location_type", Val.int 0)]
      ∧ (addOptionalArgsToPayload [] (Option.some [("x", Val.str "")]) []).1
        = [("x", Val.str "")]
      ∧ (self.get_sensors_data fields Val.none (Val.int 0) Val.none Val.none Val.none
          Val.none Val.none Val.none Val.none Val.none resp).1.params
        = [("fields", fields), ("location_type", Val.int 0)] := by
  refine ⟨?_, rfl, rfl, rfl⟩
  cases hv : v.isNone <;>
    simp [addOptionalArgsToPayload, collectStep, Dict.insert, Dict.hasKey,
      plumbingNames, hv]
